import Mathlib

/-!
Verification development for the chatbot platform repository.

The definitions below are a shallow embedding of the Python source:

- src/openai_client.py : chat_with_openai (retry loop over the external
  chat-completion API) is modelled as a pure function over an attempt
  oracle (one outcome per 0-indexed attempt).  Python exceptions become
  an Except value; time.sleep durations are recorded in a trace.
- src/routes.py : send_message (the chat-turn orchestrator) and the POST
  branch of upload_file are modelled as pure state transformers.

Modelling conventions:

- datetime.now is a strictly increasing logical clock (a Nat tick handed
  out per call).  This idealizes the microsecond wall clock exactly as
  the repository itself relies on it: created_at is the sole ordering
  key of chat messages, and consecutive now calls in one turn are
  separated by database and network work.
- SQLAlchemy column defaults fire at flush time, so a created_at value
  is drawn from the clock at the point the row is flushed, not when the
  Python object is constructed.
- The session used by routes.py has autoflush enabled, Flask-SQLAlchemy
  default.  Hence the history query at routes.py line 220, which runs
  after db.session.add of the pending user message, first flushes that
  message and then returns it as part of the query result.  The model
  reflects this: previous_messages is the stored history plus the just
  appended user row, ordered by created_at ascending.
- db.session.rollback discards every uncommitted write of the turn, so
  the failure paths of send_message return the pre-turn state.
-/

namespace Chatbot

/-! ## Model of src/openai_client.py -/

/-- Failure classes of one API attempt, mirroring the except clauses of
chat_with_openai: RateLimitError, APIConnectionError, APIError, and the
final catch-all clause for any other exception. -/
inductive ApiErr
  | rateLimit
  | connection
  | api
  | other
deriving DecidableEq, Repr

/-- Outcome of one attempt of the external chat-completion call. -/
inductive AttemptResult
  | success (content : String)
  | failure (e : ApiErr)
deriving DecidableEq, Repr

/-- True when the attempt outcome is a raised exception. -/
def AttemptResult.isFailure : AttemptResult → Bool
  | .success _ => false
  | .failure _ => true

/-- Errors raised by chat_with_openai to its caller: the RuntimeError for
a missing API key, or the terminal Exception raised once attempts are
spent, carrying the class of the last underlying failure. -/
inductive ChatError
  | notConfigured
  | exhausted (last : ApiErr)
deriving DecidableEq, Repr

/-- One entry of the message list handed to the external API. -/
structure ApiMsg where
  role : String
  content : String
deriving DecidableEq, Repr, BEq

instance exceptDecEq {ε α : Type} [DecidableEq ε] [DecidableEq α] :
    DecidableEq (Except ε α) := fun x y =>
  match x, y with
  | .error a, .error b =>
    if h : a = b then isTrue (by rw [h])
    else isFalse (fun hh => h (Except.error.inj hh))
  | .ok a, .ok b =>
    if h : a = b then isTrue (by rw [h])
    else isFalse (fun hh => h (Except.ok.inj hh))
  | .error _, .ok _ => isFalse (fun hh => Except.noConfusion hh)
  | .ok _, .error _ => isFalse (fun hh => Except.noConfusion hh)

/-- Result of a chat_with_openai call: the returned value or raised
error, the number of API attempts actually made, and the list of sleep
durations (time units) taken between consecutive attempts. -/
structure ChatOutcome where
  result : Except ChatError (Option String)
  attempts : Nat
  waits : List Nat
deriving DecidableEq, Repr

/-- Model of the for-attempt-in-range loop of chat_with_openai
(src/openai_client.py lines 40-83).  remaining is the number of loop
iterations still available, attempt the current 0-indexed loop variable.
Every except clause of the source, the catch-all included, retries with
a sleep of 2 ^ attempt + 1 while attempt < max_retries - 1 and otherwise
raises; falling off the end of the loop returns None. -/
def chatLoop (oracle : Nat → AttemptResult) (max_retries : Int) :
    Nat → Nat → ChatOutcome
  | 0, _ => { result := .ok none, attempts := 0, waits := [] }
  | remaining + 1, attempt =>
    match oracle attempt with
    | .success c => { result := .ok (some c), attempts := 1, waits := [] }
    | .failure e =>
      if (attempt : Int) < max_retries - 1 then
        let rest := chatLoop oracle max_retries remaining (attempt + 1)
        { result := rest.result, attempts := rest.attempts + 1,
          waits := (2 ^ attempt + 1) :: rest.waits }
      else
        { result := .error (.exhausted e), attempts := 1, waits := [] }

/-- Model of chat_with_openai (src/openai_client.py lines 22-83).
configured is whether the module-level OpenAI client was initialised
(an API key was present); when it is false the function raises before
attempting anything.  Python range semantics make a non-positive
max_retries an empty loop, captured by Int.toNat. -/
def chat_with_openai (configured : Bool) (oracle : Nat → AttemptResult)
    (messages : List ApiMsg) (system_prompt : String) (max_retries : Int) :
    ChatOutcome :=
  if configured then
    chatLoop oracle max_retries max_retries.toNat 0
  else
    { result := .error .notConfigured, attempts := 0, waits := [] }

/-- Message-list preparation of chat_with_openai (lines 33-36): one
system entry built from the system prompt when it is truthy, ahead of
all caller-supplied messages. -/
def chatMessages (messages : List ApiMsg) (system_prompt : String) :
    List ApiMsg :=
  (if system_prompt ≠ "" then
    [{ role := "system", content := system_prompt }]
  else []) ++ messages

/-! ### Claims C3 and C9 -/

/-- Helper: with every attempt failing, a three-attempt run exhausts. -/
theorem chatLoop_all_fail (oracle : Nat → AttemptResult)
    (e0 e1 e2 : ApiErr) (h0 : oracle 0 = .failure e0)
    (h1 : oracle 1 = .failure e1) (h2 : oracle 2 = .failure e2) :
    chatLoop oracle 3 3 0 =
      { result := .error (.exhausted e2), attempts := 3, waits := [2, 3] } := by
  simp [chatLoop, h0, h1, h2]

/-- Claim C3 (amended): with max_retries = 3 and an error source failing
every attempt with one fixed error class e — whether transient
(rate-limit, connection, generic API error) or non-transient/unclassified
— exactly 3 attempts occur, with waits of 2 ^ 0 + 1 = 2 and
2 ^ 1 + 1 = 3 time units between consecutive attempts, and the final
outcome is the exhaustion error carrying the last underlying failure.
The source retries every exception class, the catch-all clause included,
so no error fails fast. -/
theorem claim_C3_retry_exhaustion (oracle : Nat → AttemptResult)
    (messages : List ApiMsg) (system_prompt : String) (e : ApiErr)
    (h : ∀ i, oracle i = .failure e) :
    chat_with_openai true oracle messages system_prompt 3 =
      { result := .error (.exhausted e), attempts := 3, waits := [2, 3] } := by
  have := chatLoop_all_fail oracle e e e (h 0) (h 1) (h 2)
  simpa [chat_with_openai] using this

/-- Witness for claim C3: a concrete always-rate-limited oracle. -/
theorem claim_C3_retry_exhaustion_witness :
    (∀ i : Nat, (fun _ : Nat => AttemptResult.failure ApiErr.rateLimit) i =
      AttemptResult.failure ApiErr.rateLimit) ∧
    chat_with_openai true (fun _ => AttemptResult.failure ApiErr.rateLimit)
        [] "" 3 =
      { result := .error (.exhausted .rateLimit), attempts := 3,
        waits := [2, 3] } :=
  ⟨fun _ => rfl,
   claim_C3_retry_exhaustion (fun _ => AttemptResult.failure ApiErr.rateLimit)
     [] "" ApiErr.rateLimit (fun _ => rfl)⟩

/-- Counterexample for claim C3 as stated: an unclassified error that is
raised on attempt 1 does NOT fail immediately with 1 attempt; the
catch-all except clause retries it like a transient error, so 3 attempts
are made. -/
theorem claim_C3_counterexample :
    (chat_with_openai true (fun _ => AttemptResult.failure ApiErr.other)
      [] "" 3).attempts = 3 ∧
    ¬ (chat_with_openai true (fun _ => AttemptResult.failure ApiErr.other)
      [] "" 3).attempts = 1 := by
  decide

/-- Claim C9: with a configured client and max_retries ≤ 0, the range of
the attempt loop is empty, so no API attempt is made, no error is
raised, and the function falls off the end returning None. -/
theorem claim_C9_nonpositive_retries (oracle : Nat → AttemptResult)
    (messages : List ApiMsg) (system_prompt : String) (max_retries : Int)
    (h : max_retries ≤ 0) :
    chat_with_openai true oracle messages system_prompt max_retries =
      { result := .ok none, attempts := 0, waits := [] } := by
  have hz : max_retries.toNat = 0 := Int.toNat_of_nonpos h
  simp [chat_with_openai, hz, chatLoop]

/-- Witness for claim C9 at max_retries = -1. -/
theorem claim_C9_nonpositive_retries_witness :
    ((-1 : Int) ≤ 0) ∧
    chat_with_openai true (fun _ => AttemptResult.success "never") [] ""
        (-1) =
      { result := .ok none, attempts := 0, waits := [] } :=
  ⟨by decide,
   claim_C9_nonpositive_retries (fun _ => AttemptResult.success "never")
     [] "" (-1) (by decide)⟩

/-! ## Model of src/routes.py : data rows and file extraction -/

/-- One chat_messages row (src/models.py lines 90-100): role, content,
and the immutable created_at timestamp assigned at flush time. -/
structure MsgRec where
  role : String
  content : String
  created_at : Nat
deriving DecidableEq, Repr

/-- Mutable state of one chat_sessions row together with its message
rows, from the point of view of one send_message call. -/
structure SessionState where
  title : String
  updated_at : Nat
  messages : List MsgRec
deriving DecidableEq, Repr

/-- Python str.strip with no argument: drop whitespace from both ends.
Stated over the character list so that the kernel can evaluate it. -/
def pyStrip (s : String) : String :=
  String.mk
    (((s.data.dropWhile Char.isWhitespace).reverse.dropWhile
      Char.isWhitespace).reverse)

/-- Python slicing s[:n] and bounded file.read(n): the first n
characters. -/
def pyTake (s : String) (n : Nat) : String :=
  String.mk (s.data.take n)

/-- Worker for pySplit: chars still to scan, current word so far in
reverse. -/
def pySplitGo : List Char → List Char → List String
  | [], acc => if acc.isEmpty then [] else [String.mk acc.reverse]
  | c :: cs, acc =>
    if c.isWhitespace then
      if acc.isEmpty then pySplitGo cs []
      else String.mk acc.reverse :: pySplitGo cs []
    else pySplitGo cs (c :: acc)

/-- Python str.split with no separator: split on whitespace runs,
dropping empty fragments. -/
def pySplit (s : String) : List String :=
  pySplitGo s.data []

/-- Python str.startswith, over character lists. -/
def strStarts (s p : String) : Bool :=
  s.data.take p.data.length == p.data

/-- One uploaded_files row plus the on-disk document it refers to.  The
declared type tag drives the dispatch in routes.py lines 229-254; the
three read fields model what the corresponding parser would deliver for
this file, with none standing for a raised exception (missing file on
disk, I/O error, corrupt document).  A pdf page extract of none models
page.extract_text() returning None. -/
structure UploadedFile where
  filename : String
  original_filename : String
  file_type : String
  textRead : Option String
  pdfRead : Option (List (Option String))
  docxRead : Option (List String)
deriving DecidableEq, Repr

/-- Per-file summary extraction, routes.py lines 227-256.  A returned
none means the except clause caught an extraction failure and the file
contributes nothing (the failure is logged and swallowed).  Placeholder
branches never touch the disk and therefore never fail. -/
def extract_summary (f : UploadedFile) : Option String :=
  if f.file_type ∈ ["text/plain", "txt"] then
    f.textRead.map (fun content =>
      "File \x27" ++ f.original_filename ++ "\x27:\n" ++
        pyTake content 2048 ++ "\n")
  else if f.file_type ∈ ["application/pdf", "pdf"] then
    f.pdfRead.map (fun pages =>
      "File \x27" ++ f.original_filename ++ "\x27 (PDF):\n" ++
        pyTake (String.join ((pages.take 3).map (fun p => p.getD ""))) 2048 ++
        "\n")
  else if f.file_type ∈
      ["application/vnd.openxmlformats-officedocument.wordprocessingml.document",
       "application/msword", "docx", "doc"] then
    f.docxRead.map (fun paras =>
      "File \x27" ++ f.original_filename ++ "\x27 (DOCX):\n" ++
        pyTake (String.intercalate "\n" paras) 2048 ++ "\n")
  else if strStarts f.file_type "image/" then
    some ("File \x27" ++ f.original_filename ++
      "\x27 is an image. (Image content not extracted.)\n")
  else
    some ("File \x27" ++ f.original_filename ++ "\x27 is of type " ++
      f.file_type ++ ". Content extraction not supported.\n")

/-- files_context assembly, routes.py line 257: newline-join of the
successful per-file summaries in upload order.  Joining the empty list
gives the empty string, exactly as the Python conditional does. -/
def filesContext (files : List UploadedFile) : String :=
  String.intercalate "\n" (files.filterMap extract_summary)

/-- Fixed introductory sentence of the file-context system entry,
routes.py line 264. -/
def filesPreamble : String :=
  "The following files are available for this project:\n"

/-! ## Model of src/routes.py : send_message -/

/-- The history query of routes.py lines 220-222: all messages of the
session ordered by created_at ascending.  Because the pending user row
was flushed by autoflush just before the query ran, the input list here
already contains it. -/
def orderByCreatedAt (l : List MsgRec) : List MsgRec :=
  List.insertionSort (fun a b => a.created_at ≤ b.created_at) l

/-- Message-list preparation of routes.py lines 260-271: the optional
file-context system entry, then every queried message with its stored
role and content, then the new user text appended once more. -/
def routeMessages (files_context : String) (previous : List MsgRec)
    (user_message : String) : List ApiMsg :=
  (if files_context ≠ "" then
    [{ role := "system",
       content := filesPreamble ++ files_context }]
  else []) ++
  previous.map (fun m => { role := m.role, content := m.content }) ++
  [{ role := "user", content := user_message }]

/-- Auto-title computation of routes.py lines 291-292: first five
whitespace-split tokens joined by single spaces, with an ellipsis
appended exactly when five tokens were kept. -/
def autoTitle (user_message : String) : String :=
  let title_words := (pySplit user_message).take 5
  String.intercalate " " title_words ++
    (if title_words.length = 5 then "..." else "")

/-- Caller-visible outcome of one send_message call: the 400 for an
empty message, the 503 for a generation failure, the 500 path taken
when committing a None assistant content violates the NOT NULL
constraint, or the success JSON carrying both message bodies. -/
inductive TurnResult
  | validationError
  | generationError (e : ChatError)
  | serverError
  | ok (userContent : String) (aiContent : String)
deriving DecidableEq, Repr

/-- Full observable effect of one send_message call. -/
structure TurnOutput where
  result : TurnResult
  state : SessionState
  clock : Nat
  apiAttempts : Nat
deriving Repr

/-- Model of send_message, routes.py lines 192-311, for an existing,
owned project and session.  Clock ticks: the pending user row is
flushed (created_at := clock) by the autoflush of the history query;
on success updated_at is set at line 289 (clock + 1) and the assistant
row is flushed by the commit at line 293 (created_at := clock + 2).
On generation failure the rollback at line 277 discards the uncommitted
user row and the state is returned unchanged. -/
def send_message (configured : Bool) (oracle : Nat → AttemptResult)
    (system_prompt : String) (st : SessionState)
    (files : List UploadedFile) (clock : Nat) (text : String) :
    TurnOutput :=
  let user_message := pyStrip text
  if user_message = "" then
    { result := .validationError, state := st, clock := clock,
      apiAttempts := 0 }
  else
    let userMsg : MsgRec :=
      { role := "user", content := user_message, created_at := clock }
    let previous_messages := orderByCreatedAt (st.messages ++ [userMsg])
    let msgs := routeMessages (filesContext files) previous_messages
      user_message
    let out := chat_with_openai configured oracle msgs system_prompt 3
    match out.result with
    | .error e =>
      { result := .generationError e, state := st, clock := clock + 1,
        apiAttempts := out.attempts }
    | .ok none =>
      { result := .serverError, state := st, clock := clock + 1,
        apiAttempts := out.attempts }
    | .ok (some ai_response) =>
      let aiMsg : MsgRec :=
        { role := "assistant", content := ai_response,
          created_at := clock + 2 }
      let title :=
        if st.title = "New Chat" ∧ previous_messages.length = 0 then
          autoTitle user_message
        else st.title
      { result := .ok user_message ai_response,
        state := { title := title, updated_at := clock + 1,
                   messages := st.messages ++ [userMsg, aiMsg] },
        clock := clock + 3, apiAttempts := out.attempts }

/-- The exact ordered message sequence delivered to the external API for
one turn: the list built in routes.py lines 260-271 from the flushed
history, further prefixed inside chat_with_openai (lines 33-36) with the
system entry for a truthy project system prompt. -/
def deliveredMessages (system_prompt : String) (st : SessionState)
    (files : List UploadedFile) (clock : Nat) (text : String) :
    List ApiMsg :=
  chatMessages
    (routeMessages (filesContext files)
      (orderByCreatedAt (st.messages ++
        [{ role := "user", content := pyStrip text, created_at := clock }]))
      (pyStrip text))
    system_prompt

/-! ### Claims C8 and C1 -/

/-- Claim C8: a message that is empty after trimming is rejected with
the 400 validation error at routes.py lines 208-209, before any row is
added: session state (message rows, title, updated_at) is byte-for-byte
unchanged, the clock never advances, and zero API attempts are made. -/
theorem claim_C8_empty_message (configured : Bool)
    (oracle : Nat → AttemptResult) (system_prompt : String)
    (st : SessionState) (files : List UploadedFile) (clock : Nat)
    (text : String) (h : pyStrip text = "") :
    send_message configured oracle system_prompt st files clock text =
      { result := .validationError, state := st, clock := clock,
        apiAttempts := 0 } := by
  simp [send_message, h]

/-- Witness for claim C8 on a whitespace-only message. -/
theorem claim_C8_empty_message_witness :
    (pyStrip "   " = "") ∧
    send_message true (fun _ => AttemptResult.success "ok") "sp"
        { title := "New Chat", updated_at := 0, messages := [] } [] 5
        "   " =
      { result := .validationError,
        state := { title := "New Chat", updated_at := 0, messages := [] },
        clock := 5, apiAttempts := 0 } :=
  ⟨by decide,
   claim_C8_empty_message true (fun _ => AttemptResult.success "ok") "sp"
     { title := "New Chat", updated_at := 0, messages := [] } [] 5 "   "
     (by decide)⟩

/-- Helper: a failure outcome carries some error class. -/
theorem isFailure_exists {r : AttemptResult} (h : r.isFailure = true) :
    ∃ e, r = AttemptResult.failure e := by
  cases r with
  | success c => simp [AttemptResult.isFailure] at h
  | failure e => exact ⟨e, rfl⟩

/-- Helper: when every attempt raises, the three-attempt generation call
of routes.py line 275 ends in a raised error, configured or not. -/
theorem chat_fails_all (configured : Bool) (oracle : Nat → AttemptResult)
    (messages : List ApiMsg) (system_prompt : String)
    (h : ∀ i, (oracle i).isFailure = true) :
    ∃ e, (chat_with_openai configured oracle messages system_prompt
      3).result = Except.error e := by
  cases configured with
  | false => exact ⟨.notConfigured, rfl⟩
  | true =>
    obtain ⟨e0, h0⟩ := isFailure_exists (h 0)
    obtain ⟨e1, h1⟩ := isFailure_exists (h 1)
    obtain ⟨e2, h2⟩ := isFailure_exists (h 2)
    refine ⟨.exhausted e2, ?_⟩
    have hl := chatLoop_all_fail oracle e0 e1 e2 h0 h1 h2
    simp [chat_with_openai, hl]

/-- Claim C1: when the generation call raises on every attempt, the
rollback at routes.py line 277 discards the just-appended user row, so
the returned session state equals the pre-turn state (same message
count, no unpaired user message, no assistant message, title and
updated_at untouched) and a service-unavailable error is surfaced. -/
theorem claim_C1_rollback_on_generation_failure (configured : Bool)
    (oracle : Nat → AttemptResult) (system_prompt : String)
    (st : SessionState) (files : List UploadedFile) (clock : Nat)
    (text : String) (hfail : ∀ i, (oracle i).isFailure = true)
    (hne : pyStrip text ≠ "") :
    ∃ e,
      (send_message configured oracle system_prompt st files clock
        text).result = TurnResult.generationError e ∧
      (send_message configured oracle system_prompt st files clock
        text).state = st := by
  obtain ⟨e, he⟩ := chat_fails_all configured oracle
    (routeMessages (filesContext files)
      (orderByCreatedAt (st.messages ++
        [{ role := "user", content := pyStrip text, created_at := clock }]))
      (pyStrip text))
    system_prompt hfail
  refine ⟨e, ?_, ?_⟩ <;> simp [send_message, hne, he]

/-- Witness for claim C1: a concrete always-failing generation call on a
session with one stored exchange. -/
theorem claim_C1_rollback_on_generation_failure_witness :
    (∀ i : Nat, ((fun _ : Nat => AttemptResult.failure ApiErr.connection)
      i).isFailure = true) ∧
    (pyStrip "again" ≠ "") ∧
    (∃ e,
      (send_message true (fun _ => AttemptResult.failure ApiErr.connection)
        "sp"
        { title := "New Chat", updated_at := 1,
          messages := [{ role := "user", content := "a", created_at := 0 },
                       { role := "assistant", content := "b",
                         created_at := 1 }] }
        [] 2 "again").result = TurnResult.generationError e ∧
      (send_message true (fun _ => AttemptResult.failure ApiErr.connection)
        "sp"
        { title := "New Chat", updated_at := 1,
          messages := [{ role := "user", content := "a", created_at := 0 },
                       { role := "assistant", content := "b",
                         created_at := 1 }] }
        [] 2 "again").state =
        { title := "New Chat", updated_at := 1,
          messages := [{ role := "user", content := "a", created_at := 0 },
                       { role := "assistant", content := "b",
                         created_at := 1 }] }) :=
  ⟨fun _ => rfl, by decide,
   claim_C1_rollback_on_generation_failure true
     (fun _ => AttemptResult.failure ApiErr.connection) "sp"
     { title := "New Chat", updated_at := 1,
       messages := [{ role := "user", content := "a", created_at := 0 },
                    { role := "assistant", content := "b",
                      created_at := 1 }] }
     [] 2 "again" (fun _ => rfl) (by decide)⟩

/-! ### Claims C2 and C5 -/

/-- Claim C2, evaluated at the specification example (system prompt
Be terse., one text file F1.txt holding F1 content, history user a then
assistant b, new message c).  Because the history query runs after the
pending user row was added, autoflush makes it return that row too, so
the sequence delivered to the external API carries the new user message
TWICE: once as the last element of the loaded history and once as the
explicitly appended final entry.  The claimed sequence, ending in a
single user c entry, is therefore not what the code sends. -/
theorem claim_C2_new_message_sent_twice :
    deliveredMessages "Be terse."
        { title := "New Chat", updated_at := 1,
          messages := [{ role := "user", content := "a", created_at := 0 },
                       { role := "assistant", content := "b",
                         created_at := 1 }] }
        [{ filename := "f1", original_filename := "F1.txt",
           file_type := "txt", textRead := some "F1 content",
           pdfRead := none, docxRead := none }]
        2 "c" =
      [{ role := "system", content := "Be terse." },
       { role := "system",
         content := "The following files are available for this project:\nFile \x27F1.txt\x27:\nF1 content\n" },
       { role := "user", content := "a" },
       { role := "assistant", content := "b" },
       { role := "user", content := "c" },
       { role := "user", content := "c" }] ∧
    (deliveredMessages "Be terse."
        { title := "New Chat", updated_at := 1,
          messages := [{ role := "user", content := "a", created_at := 0 },
                       { role := "assistant", content := "b",
                         created_at := 1 }] }
        [{ filename := "f1", original_filename := "F1.txt",
           file_type := "txt", textRead := some "F1 content",
           pdfRead := none, docxRead := none }]
        2 "c").count { role := "user", content := "c" } = 2 := by
  constructor <;> rfl

/-- Claim C5: the auto-title branch of routes.py lines 290-292 is dead
code.  The guard requires len(previous_messages) == 0, but the history
query always returns at least the just-flushed user row, so its length
is never zero and the title of a send_message call is always left
unchanged.  In particular the specification example — message hi on a
brand-new session titled New Chat — completes successfully yet leaves
the title New Chat instead of setting it to hi. -/
theorem claim_C5_title_never_set :
    (∀ (configured : Bool) (oracle : Nat → AttemptResult)
      (system_prompt : String) (st : SessionState)
      (files : List UploadedFile) (clock : Nat) (text : String),
      (send_message configured oracle system_prompt st files clock
        text).state.title = st.title) ∧
    (send_message true (fun _ => AttemptResult.success "ok") ""
      { title := "New Chat", updated_at := 0, messages := [] } [] 0
      "hi").result = TurnResult.ok "hi" "ok" ∧
    (send_message true (fun _ => AttemptResult.success "ok") ""
      { title := "New Chat", updated_at := 0, messages := [] } [] 0
      "hi").state.title = "New Chat" ∧
    ¬ (send_message true (fun _ => AttemptResult.success "ok") ""
      { title := "New Chat", updated_at := 0, messages := [] } [] 0
      "hi").state.title = "hi" := by
  refine ⟨?_, by decide, by decide, by decide⟩
  intro configured oracle system_prompt st files clock text
  by_cases h : pyStrip text = ""
  · simp [send_message, h]
  · have hlen :
        orderByCreatedAt (st.messages ++
          [{ role := "user", content := pyStrip text,
             created_at := clock }]) ≠ [] := by
      intro hnil
      have := congrArg List.length hnil
      rw [orderByCreatedAt, List.length_insertionSort] at this
      simp at this
    cases hres : (chat_with_openai configured oracle
        (routeMessages (filesContext files)
          (orderByCreatedAt (st.messages ++
            [{ role := "user", content := pyStrip text,
               created_at := clock }]))
          (pyStrip text))
        system_prompt 3).result with
    | error e => simp [send_message, h, hres]
    | ok oc =>
      cases oc with
      | none => simp [send_message, h, hres]
      | some c => simp [send_message, h, hres, hlen]

/-! ### Claim C4 -/

/-- Counterexample to claim C4 as stated: on a concrete successful turn
the session updated_at is assigned at routes.py line 289, one clock tick
BEFORE the assistant row created_at is assigned by the commit flush at
line 293, so updated_at is 1 while created_at(assistant) is 2 and the
claimed inequality updated_at ≥ created_at(assistant) fails. -/
theorem claim_C4_counterexample :
    (send_message true (fun _ => AttemptResult.success "ok") "sp"
      { title := "T", updated_at := 0, messages := [] } [] 0
      "hello").state.messages =
      [{ role := "user", content := "hello", created_at := 0 },
       { role := "assistant", content := "ok", created_at := 2 }] ∧
    (send_message true (fun _ => AttemptResult.success "ok") "sp"
      { title := "T", updated_at := 0, messages := [] } [] 0
      "hello").state.updated_at = 1 ∧
    ¬ (send_message true (fun _ => AttemptResult.success "ok") "sp"
      { title := "T", updated_at := 0, messages := [] } [] 0
      "hello").state.updated_at ≥ 2 := by
  refine ⟨?_, ?_, ?_⟩ <;> decide

/-- Claim C4 (amended): a successful turn appends exactly two new rows —
first the user row holding the trimmed submitted text, then the
assistant row holding the generated content — with
created_at(user) < created_at(assistant); the session updated_at is
assigned between the two, so created_at(user) < updated_at ≤
created_at(assistant) (the claimed updated_at ≥ created_at(assistant)
holds only as the ≤ direction). -/
theorem claim_C4_success_turn (configured : Bool)
    (oracle : Nat → AttemptResult) (system_prompt : String)
    (st : SessionState) (files : List UploadedFile) (clock : Nat)
    (text : String) (a : String) (hne : pyStrip text ≠ "")
    (hok : (chat_with_openai configured oracle
        (routeMessages (filesContext files)
          (orderByCreatedAt (st.messages ++
            [{ role := "user", content := pyStrip text,
               created_at := clock }]))
          (pyStrip text))
        system_prompt 3).result = Except.ok (some a)) :
    ∃ userRow aiRow : MsgRec,
      (send_message configured oracle system_prompt st files clock
        text).state.messages = st.messages ++ [userRow, aiRow] ∧
      userRow.role = "user" ∧ userRow.content = pyStrip text ∧
      aiRow.role = "assistant" ∧ aiRow.content = a ∧
      userRow.created_at < aiRow.created_at ∧
      userRow.created_at <
        (send_message configured oracle system_prompt st files clock
          text).state.updated_at ∧
      (send_message configured oracle system_prompt st files clock
        text).state.updated_at ≤ aiRow.created_at ∧
      (send_message configured oracle system_prompt st files clock
        text).result = TurnResult.ok (pyStrip text) a := by
  refine ⟨{ role := "user", content := pyStrip text, created_at := clock },
    { role := "assistant", content := a, created_at := clock + 2 },
    ?_, rfl, rfl, rfl, rfl, Nat.lt_add_of_pos_right (by omega), ?_, ?_,
    ?_⟩ <;> simp [send_message, hne, hok]

/-- Witness for claim C4 on a concrete successful turn. -/
theorem claim_C4_success_turn_witness :
    (pyStrip " hi " ≠ "") ∧
    ((chat_with_openai true (fun _ => AttemptResult.success "resp")
        (routeMessages (filesContext [])
          (orderByCreatedAt
            (([] : List MsgRec) ++
              [{ role := "user", content := pyStrip " hi ",
                 created_at := 0 }]))
          (pyStrip " hi "))
        "sp" 3).result = Except.ok (some "resp")) ∧
    (∃ userRow aiRow : MsgRec,
      (send_message true (fun _ => AttemptResult.success "resp") "sp"
        { title := "T", updated_at := 7, messages := [] } [] 0
        " hi ").state.messages = [] ++ [userRow, aiRow] ∧
      userRow.role = "user" ∧ userRow.content = pyStrip " hi " ∧
      aiRow.role = "assistant" ∧ aiRow.content = "resp" ∧
      userRow.created_at < aiRow.created_at ∧
      userRow.created_at <
        (send_message true (fun _ => AttemptResult.success "resp") "sp"
          { title := "T", updated_at := 7, messages := [] } [] 0
          " hi ").state.updated_at ∧
      (send_message true (fun _ => AttemptResult.success "resp") "sp"
        { title := "T", updated_at := 7, messages := [] } [] 0
        " hi ").state.updated_at ≤ aiRow.created_at ∧
      (send_message true (fun _ => AttemptResult.success "resp") "sp"
        { title := "T", updated_at := 7, messages := [] } [] 0
        " hi ").result = TurnResult.ok (pyStrip " hi ") "resp") :=
  ⟨by decide, by decide,
   claim_C4_success_turn true (fun _ => AttemptResult.success "resp") "sp"
     { title := "T", updated_at := 7, messages := [] } [] 0 " hi " "resp"
     (by decide) (by decide)⟩

/-! ### Claims C6 and C7 -/

/-- Claim C6: an extraction failure for one file (extract_summary
yields none: missing file on disk, I/O error, corrupt document) is
absorbed inside the per-file except clause of routes.py lines 229-256.
The failing file contributes nothing to the concatenated context, the
summaries of every other file are unchanged, and the whole turn behaves
exactly as if the failing file were absent. -/
theorem claim_C6_extraction_failure_absorbed (configured : Bool)
    (oracle : Nat → AttemptResult) (system_prompt : String)
    (st : SessionState) (clock : Nat) (text : String)
    (xs ys : List UploadedFile) (f : UploadedFile)
    (h : extract_summary f = none) :
    filesContext (xs ++ f :: ys) = filesContext (xs ++ ys) ∧
    send_message configured oracle system_prompt st (xs ++ f :: ys)
        clock text =
      send_message configured oracle system_prompt st (xs ++ ys) clock
        text := by
  have hctx : filesContext (xs ++ f :: ys) = filesContext (xs ++ ys) := by
    simp [filesContext, List.filterMap_cons, h]
  exact ⟨hctx, by simp only [send_message, hctx]⟩

/-- Witness for claim C6: a text file whose disk read raises, placed
between a readable text file and an image file. -/
theorem claim_C6_extraction_failure_absorbed_witness :
    (extract_summary
      { filename := "b", original_filename := "bad.txt",
        file_type := "txt", textRead := none, pdfRead := none,
        docxRead := none } = none) ∧
    (filesContext
        ([{ filename := "g", original_filename := "good.txt",
            file_type := "txt", textRead := some "good text",
            pdfRead := none, docxRead := none }] ++
          { filename := "b", original_filename := "bad.txt",
            file_type := "txt", textRead := none, pdfRead := none,
            docxRead := none } ::
          [{ filename := "i", original_filename := "pic.png",
             file_type := "image/png", textRead := none, pdfRead := none,
             docxRead := none }]) =
      filesContext
        ([{ filename := "g", original_filename := "good.txt",
            file_type := "txt", textRead := some "good text",
            pdfRead := none, docxRead := none }] ++
          [{ filename := "i", original_filename := "pic.png",
             file_type := "image/png", textRead := none, pdfRead := none,
             docxRead := none }]) ∧
    send_message true (fun _ => AttemptResult.success "ok") "sp"
        { title := "New Chat", updated_at := 0, messages := [] }
        ([{ filename := "g", original_filename := "good.txt",
            file_type := "txt", textRead := some "good text",
            pdfRead := none, docxRead := none }] ++
          { filename := "b", original_filename := "bad.txt",
            file_type := "txt", textRead := none, pdfRead := none,
            docxRead := none } ::
          [{ filename := "i", original_filename := "pic.png",
             file_type := "image/png", textRead := none, pdfRead := none,
             docxRead := none }]) 0 "hi" =
      send_message true (fun _ => AttemptResult.success "ok") "sp"
        { title := "New Chat", updated_at := 0, messages := [] }
        ([{ filename := "g", original_filename := "good.txt",
            file_type := "txt", textRead := some "good text",
            pdfRead := none, docxRead := none }] ++
          [{ filename := "i", original_filename := "pic.png",
             file_type := "image/png", textRead := none, pdfRead := none,
             docxRead := none }]) 0 "hi") :=
  ⟨rfl,
   claim_C6_extraction_failure_absorbed true
     (fun _ => AttemptResult.success "ok") "sp"
     { title := "New Chat", updated_at := 0, messages := [] } 0 "hi"
     [{ filename := "g", original_filename := "good.txt",
        file_type := "txt", textRead := some "good text",
        pdfRead := none, docxRead := none }]
     [{ filename := "i", original_filename := "pic.png",
        file_type := "image/png", textRead := none, pdfRead := none,
        docxRead := none }]
     { filename := "b", original_filename := "bad.txt",
       file_type := "txt", textRead := none, pdfRead := none,
       docxRead := none }
     rfl⟩

/-- Claim C7: the summary is determined by the declared type tag.
Plain text is the read content capped at 2048 characters; PDF text
comes from at most the first 3 pages and is capped at 2048; DOCX joins
all paragraph text and caps at 2048; an image type or any other
unsupported type yields its fixed placeholder sentence naming the file
(and for the unsupported case its type) with no read attempted — the
placeholder cases hold for every value of the read fields.  The project
file context is the join of the per-file summaries, each framed with
the originating filename, in upload order, and empty for zero files. -/
theorem claim_C7_summary_by_type (f : UploadedFile)
    (fs : List UploadedFile) :
    (f.file_type ∈ ["text/plain", "txt"] →
      extract_summary f = f.textRead.map (fun content =>
        "File \x27" ++ f.original_filename ++ "\x27:\n" ++
          pyTake content 2048 ++ "\n")) ∧
    (f.file_type ∈ ["application/pdf", "pdf"] →
      extract_summary f = f.pdfRead.map (fun pages =>
        "File \x27" ++ f.original_filename ++ "\x27 (PDF):\n" ++
          pyTake (String.join ((pages.take 3).map (fun p => p.getD "")))
            2048 ++ "\n")) ∧
    (f.file_type ∈
        ["application/vnd.openxmlformats-officedocument.wordprocessingml.document",
         "application/msword", "docx", "doc"] →
      extract_summary f = f.docxRead.map (fun paras =>
        "File \x27" ++ f.original_filename ++ "\x27 (DOCX):\n" ++
          pyTake (String.intercalate "\n" paras) 2048 ++ "\n")) ∧
    (f.file_type ∉
        ["text/plain", "txt", "application/pdf", "pdf",
         "application/vnd.openxmlformats-officedocument.wordprocessingml.document",
         "application/msword", "docx", "doc"] →
      strStarts f.file_type "image/" = true →
      extract_summary f =
        some ("File \x27" ++ f.original_filename ++
          "\x27 is an image. (Image content not extracted.)\n")) ∧
    (f.file_type ∉
        ["text/plain", "txt", "application/pdf", "pdf",
         "application/vnd.openxmlformats-officedocument.wordprocessingml.document",
         "application/msword", "docx", "doc"] →
      strStarts f.file_type "image/" = false →
      extract_summary f =
        some ("File \x27" ++ f.original_filename ++ "\x27 is of type " ++
          f.file_type ++ ". Content extraction not supported.\n")) ∧
    filesContext [] = "" ∧
    filesContext fs =
      String.intercalate "\n" (fs.filterMap extract_summary) := by
  refine ⟨?_, ?_, ?_, ?_, ?_, rfl, rfl⟩
  · intro h
    simp [extract_summary, h]
  · intro h
    simp only [List.mem_cons, List.not_mem_nil, or_false] at h
    rcases h with h | h <;> simp [extract_summary, h]
  · intro h
    simp only [List.mem_cons, List.not_mem_nil, or_false] at h
    rcases h with h | h | h | h <;> simp [extract_summary, h]
  · intro h himg
    simp only [List.mem_cons, List.not_mem_nil, or_false, not_or] at h
    obtain ⟨h1, h2, h3, h4, h5, h6, h7, h8⟩ := h
    simp [extract_summary, h1, h2, h3, h4, h5, h6, h7, h8, himg]
  · intro h himg
    simp only [List.mem_cons, List.not_mem_nil, or_false, not_or] at h
    obtain ⟨h1, h2, h3, h4, h5, h6, h7, h8⟩ := h
    simp [extract_summary, h1, h2, h3, h4, h5, h6, h7, h8, himg]

/-- Witness for claim C7: a concrete text file, an image file and an
unsupported-type file. -/
theorem claim_C7_summary_by_type_witness :
    ("txt" ∈ ["text/plain", "txt"]) ∧
    extract_summary
        { filename := "x", original_filename := "notes.txt",
          file_type := "txt", textRead := some "hello", pdfRead := none,
          docxRead := none } =
      some ("File \x27notes.txt\x27:\nhello\n") ∧
    extract_summary
        { filename := "y", original_filename := "pic.png",
          file_type := "image/png", textRead := none, pdfRead := none,
          docxRead := none } =
      some ("File \x27pic.png\x27 is an image. (Image content not extracted.)\n") ∧
    extract_summary
        { filename := "z", original_filename := "data.csv",
          file_type := "text/csv", textRead := none, pdfRead := none,
          docxRead := none } =
      some ("File \x27data.csv\x27 is of type text/csv. Content extraction not supported.\n") := by
  refine ⟨by decide, ?_, ?_, ?_⟩
  · have h := (claim_C7_summary_by_type
      { filename := "x", original_filename := "notes.txt",
        file_type := "txt", textRead := some "hello", pdfRead := none,
        docxRead := none } []).1 (by decide)
    simpa using h
  · have h := (claim_C7_summary_by_type
      { filename := "y", original_filename := "pic.png",
        file_type := "image/png", textRead := none, pdfRead := none,
        docxRead := none } []).2.2.2.1 (by decide) (by decide)
    simpa using h
  · have h := (claim_C7_summary_by_type
      { filename := "z", original_filename := "data.csv",
        file_type := "text/csv", textRead := none, pdfRead := none,
        docxRead := none } []).2.2.2.2.1 (by decide) (by decide)
    simpa using h

/-! ## Model of src/routes.py : upload_file (POST branch) -/

/-- The uploaded_files row created on a successful registration. -/
structure UploadRow where
  filename : String
  openai_file_id : String
deriving DecidableEq, Repr

/-- Caller-visible outcome of the upload POST branch. -/
inductive UploadOutcomeKind
  | success
  | failure
deriving DecidableEq, Repr

/-- Model of the POST branch of upload_file (routes.py lines 329-361)
for an allowed, non-empty filename.  The disk is the list of stored
filenames; file.save appends the fresh timestamped name.  Registration
covers the two fallible steps inside the try block: the external
upload_file_to_openai call and the db.session.commit.  If either
raises, the except clause removes the saved local file (after an
existence check) and the row was never durably committed.  Returns the
outcome, the disk after the request, and the durably created row if
any. -/
def upload_file (disk : List String) (filename : String)
    (openaiUpload : Except Unit String) (commitOk : Bool) :
    UploadOutcomeKind × List String × Option UploadRow :=
  let disk1 := disk ++ [filename]
  match openaiUpload with
  | .error _ =>
    (.failure, if filename ∈ disk1 then disk1.erase filename else disk1,
      none)
  | .ok fid =>
    if commitOk then
      (.success, disk1,
        some ⟨filename, fid⟩)
    else
      (.failure, if filename ∈ disk1 then disk1.erase filename else disk1,
        none)

/-- Claim C10: when registration fails after the bytes were saved —
the external file upload raises or the database commit raises — the
handler deletes the saved local file and commits no uploaded_files row:
the disk is exactly as before the request and no durable record
exists. -/
theorem claim_C10_failed_upload_cleanup (disk : List String)
    (filename : String) (openaiUpload : Except Unit String)
    (commitOk : Bool) (hfresh : filename ∉ disk)
    (hfail : openaiUpload = Except.error () ∨ commitOk = false) :
    upload_file disk filename openaiUpload commitOk =
      (UploadOutcomeKind.failure, disk, none) := by
  have herase : (disk ++ [filename]).erase filename = disk := by
    rw [List.erase_append_right _ hfresh]
    simp
  have hmem : filename ∈ disk ++ [filename] := by simp
  cases openaiUpload with
  | error u => simp [upload_file, hmem, herase]
  | ok fid =>
    rcases hfail with h | h
    · exact absurd h (by simp)
    · simp [upload_file, h, hmem, herase]

/-- Witness for claim C10: the external upload raises for a fresh file
name. -/
theorem claim_C10_failed_upload_cleanup_witness :
    ("20240101_doc.txt" ∉ ["old.txt"]) ∧
    (Except.error () = (Except.error () : Except Unit String) ∨
      True = false) ∧
    upload_file ["old.txt"] "20240101_doc.txt"
        (Except.error ()) true =
      (UploadOutcomeKind.failure, ["old.txt"], none) :=
  ⟨by decide, Or.inl rfl,
   claim_C10_failed_upload_cleanup ["old.txt"] "20240101_doc.txt"
     (Except.error ()) true (by decide) (Or.inl rfl)⟩

end Chatbot
